import Mathlib

/-!
Verification development for the PR review orchestration workflow of
src/pr-analyzer.py.  The Python source is shallowly embedded: every
definition below mirrors a specific piece of the source (the source line
numbers are cited in the doc comments), with Python dictionaries rendered
as Lean structures, absent dictionary keys as Option fields, and the three
remote Gateway operations rendered as an explicit call trace plus an
environment that supplies the responses.
-/

/-! ## Python string primitives

The scanner in the source uses four Python string operations:
`line.startswith("+")`, `line[1:]`, `"TODO" in content`, and
`patch.split("\n")`.  All four are modelled here on `List Char` via
`String.toList`, by structural recursion, so that every definition
evaluates on concrete inputs.
-/

/-- Does the character list `s` start with the pattern `pat`?
Models Python `s.startswith(pat)` at the list level. -/
def listHasPre (pat s : List Char) : Bool :=
  match pat, s with
  | [], _ => true
  | _ :: _, [] => false
  | a :: as, b :: bs => a == b && listHasPre as bs

/-- Does `pat` occur as a contiguous sublist of `s`?
Models Python `pat in s` at the list level. -/
def listHasSub (pat : List Char) : List Char → Bool
  | [] => listHasPre pat []
  | s@(_ :: rest) => listHasPre pat s || listHasSub pat rest

/-- Python `pat in s` on strings (literal, case-sensitive substring test). -/
def strHasSub (s pat : String) : Bool :=
  listHasSub pat.toList s.toList

/-- Python `line.startswith("+")`: the first character is `+`. -/
def pyStartsWithPlus (line : String) : Bool :=
  match line.toList with
  | [] => false
  | c :: _ => c == '+'

/-- Python `line[1:]`: the string with its first character removed. -/
def pyDropFirst (line : String) : String :=
  String.mk (line.toList.drop 1)

/-- Helper for `pySplitNL`: `cur` holds the characters of the current
field in reverse order. -/
def splitNLAux (cur : List Char) : List Char → List String
  | [] => [String.mk cur.reverse]
  | c :: rest =>
    if c == '\n' then String.mk cur.reverse :: splitNLAux [] rest
    else splitNLAux (c :: cur) rest

/-- Python `s.split("\n")`: split on every newline, keeping empty fields,
with the empty string yielding the single field `""`. -/
def pySplitNL (s : String) : List String :=
  splitNLAux [] s.toList

/-! ## Diff Scanner (src/pr-analyzer.py lines 332-347)

The per-line loop inside `review_pr_automatically`: every line of the
patch that starts with `+` has the marker stripped and is flagged when
the remaining content contains `TODO` or `FIXME`; each flagged line
produces one issue string.  The `position` counter of the source loop is
incremented but never used for the emitted issues, so it is omitted.
-/

/-- The issue string built at source line 346:
`f"Found TODO/FIXME in {filename} at line with content: {content}"`. -/
def mkIssue (filename content : String) : String :=
  "Found TODO/FIXME in " ++ filename ++ " at line with content: " ++ content

/-- The body of the scanning loop (source lines 334-347), one line at a
time over the already-split patch. -/
def scanLines (filename : String) : List String → List String
  | [] => []
  | line :: rest =>
    if pyStartsWithPlus line then
      let content := pyDropFirst line
      if strHasSub content "TODO" || strHasSub content "FIXME" then
        mkIssue filename content :: scanLines filename rest
      else
        scanLines filename rest
    else
      scanLines filename rest

/-- Scan one patch text: `patch.split("\n")` fed to the line loop. -/
def scanPatch (filename patch : String) : List String :=
  scanLines filename (pySplitNL patch)

/-- One changed file as assembled by `fetch_pr_changes`
(source lines 44-55).  After the fetch every key is present, with
`patch`, `raw_url` and `contents_url` defaulted to the empty string. -/
structure FileChange where
  filename : String
  status : String
  additions : Nat
  deletions : Nat
  changes : Nat
  patch : String
  raw_url : String
  contents_url : String
deriving Repr, DecidableEq

/-- The findings contributed by one file (source lines 324-347): a file
whose patch is empty is skipped (`if not patch: continue`), otherwise its
patch is scanned. -/
def fileFindings (fc : FileChange) : List String :=
  if fc.patch == "" then [] else scanPatch fc.filename fc.patch

/-- The accumulated `issues_found` over all changed files, preserving
file order and intra-file line order (source lines 321-347). -/
def scanFiles (changes : List FileChange) : List String :=
  changes.flatMap fileFindings

/-- Written from the wording of the spec (section 4.1): a line is flagged
iff it is an added line (prefix `+`) and its content with the leading
diff marker stripped contains the literal substring `TODO` or `FIXME`. -/
def flaggedLine_spec (line : String) : Bool :=
  pyStartsWithPlus line &&
    (strHasSub (pyDropFirst line) "TODO" || strHasSub (pyDropFirst line) "FIXME")

/-! ## PR fetch (src/pr-analyzer.py lines 13-77, `fetch_pr_changes`)

The two GitHub responses are modelled as raw data whose dictionary keys
may be absent: an `Option` field set to `none` stands for a missing key.
The source reads the required keys with `[...]`, so a missing key raises
`KeyError`, is caught by the blanket `except` at line 74, and the whole
fetch returns `None`.  Optional keys are read with `.get` and a default.
-/

/-- The JSON body of the pull-request metadata response, restricted to
the keys the source reads.  `head_sha` stands for `pr_data["head"]["sha"]`
(missing `head`, or `head` without `sha`, is `none`). -/
structure RawPRData where
  title : Option String
  body : Option String
  user_login : Option String
  created_at : Option String
  updated_at : Option String
  state : Option String
  head_sha : Option String
  mergeable : Option Bool
deriving Repr, DecidableEq

/-- One element of the file-change list response, restricted to the keys
the source reads (source lines 44-54). -/
structure RawFileData where
  filename : Option String
  status : Option String
  additions : Option Nat
  deletions : Option Nat
  changes : Option Nat
  patch : Option String
  raw_url : Option String
  contents_url : Option String
deriving Repr, DecidableEq

/-- The outcome of the two HTTP reads: `failure` covers a network error
or a non-2xx status (`raise_for_status`) on either request; `ok` carries
both parsed JSON bodies. -/
inductive FetchResponse where
  | failure
  | ok (pr : RawPRData) (files : List RawFileData)
deriving Repr, DecidableEq

/-- The `change` dictionary built per file (source lines 45-54):
`filename`, `status`, `additions`, `deletions`, `changes` are read with
`[...]` (missing key aborts the fetch); `patch`, `raw_url`,
`contents_url` are read with `.get(key, "")`. -/
def mkFileChange (f : RawFileData) : Option FileChange :=
  match f.filename, f.status, f.additions, f.deletions, f.changes with
  | some fn, some st, some a, some d, some c =>
    some { filename := fn, status := st, additions := a, deletions := d,
           changes := c, patch := f.patch.getD "",
           raw_url := f.raw_url.getD "", contents_url := f.contents_url.getD "" }
  | _, _, _, _, _ => none

/-- The `pr_info` dictionary returned by a successful fetch
(source lines 58-69). -/
structure PRInfo where
  title : String
  description : String
  author : String
  created_at : String
  updated_at : String
  state : String
  total_changes : Nat
  changes : List FileChange
  head_sha : String
  mergeable : Bool
deriving Repr, DecidableEq

/-- `fetch_pr_changes` (source lines 13-77): `none` is the `None` the
blanket `except` returns, produced by a transport failure or by any
required key missing from either response; `mergeable` is read with
`.get("mergeable", False)`. -/
def fetch_pr_changes : FetchResponse → Option PRInfo
  | .failure => none
  | .ok pr files => do
    let changes ← files.mapM mkFileChange
    let title ← pr.title
    let description ← pr.body
    let author ← pr.user_login
    let created_at ← pr.created_at
    let updated_at ← pr.updated_at
    let state ← pr.state
    let head_sha ← pr.head_sha
    pure { title, description, author, created_at, updated_at, state,
           total_changes := changes.length, changes, head_sha,
           mergeable := pr.mergeable.getD false }

/-! ## Merge (src/pr-analyzer.py lines 225-285, `merge_pr`) -/

/-- The JSON payload `data` sent by `merge_pr` (source lines 248-254):
a field is `none` when the corresponding key is left out of the
dictionary. -/
structure MergePayload where
  commit_title : Option String
  commit_message : Option String
  merge_method : Option String
deriving Repr, DecidableEq

/-- Python truthiness for an optional string argument: `if commit_title:`
keeps the key only when the argument is neither `None` nor empty. -/
def truthyStr : Option String → Option String
  | none => none
  | some s => if s == "" then none else some s

/-- Building the merge payload (source lines 248-254): optional title and
message are added when truthy; `merge_method` is added only when it is
one of `merge`, `squash`, `rebase`. -/
def buildMergePayload (commit_title commit_message : Option String)
    (merge_method : String) : MergePayload :=
  { commit_title := truthyStr commit_title,
    commit_message := truthyStr commit_message,
    merge_method :=
      if merge_method == "merge" || merge_method == "squash" || merge_method == "rebase"
      then some merge_method else none }

/-- The outcome of the PUT request in `merge_pr`: a 200 response with
the optional `message` and `sha` keys of its JSON body, a non-200
response with the optional `message` key of its error body, or a raised
exception with its text. -/
inductive MergeHttpResponse where
  | ok (message : Option String) (sha : Option String)
  | httpErr (message : Option String)
  | exn (text : String)
deriving Repr, DecidableEq

/-- The dictionary `merge_pr` returns (source lines 259-285).  `sha` is
`none` in the two error branches, where the source leaves the key out. -/
structure MergeResult where
  status : String
  message : String
  sha : Option String
  merged : Bool
deriving Repr, DecidableEq

/-- How `merge_pr` turns the HTTP outcome into its result dictionary
(source lines 256-285), including the `.get` defaults. -/
def handleMergeResponse : MergeHttpResponse → MergeResult
  | .ok message sha =>
    { status := "success",
      message := message.getD "Pull Request successfully merged",
      sha := some (sha.getD ""), merged := true }
  | .httpErr message =>
    { status := "error", message := message.getD "Unknown error",
      sha := none, merged := false }
  | .exn text =>
    { status := "error", message := "Exception merging PR: " ++ text,
      sha := none, merged := false }

/-- `merge_pr` (source lines 225-285): build the payload, send it to the
environment `respond`, and translate the response. -/
def merge_pr (commit_title commit_message : Option String)
    (merge_method : String) (respond : MergePayload → MergeHttpResponse) :
    MergeResult :=
  handleMergeResponse (respond (buildMergePayload commit_title commit_message merge_method))

/-! ## Gateway calls and the orchestrator
(src/pr-analyzer.py lines 287-418, `review_pr_automatically`)

The remote operations the tools can issue are recorded in a trace, in
invocation order, so that "operation X is never called" is a statement
about the trace.  The environment `Gateway` supplies the fetch outcome
(already translated by `fetch_pr_changes`, whose falsy `None` / `{}`
outcomes are both `none`) and the merge response.
-/

/-- One invocation of a remote Gateway operation, with the arguments the
orchestrator passes. -/
inductive GatewayCall where
  | fetchPR (owner repo : String) (pr_number : Nat)
  | submitReview (owner repo : String) (pr_number : Nat)
      (commit_id body event : String)
  | submitInlineComment (owner repo : String) (pr_number : Nat)
      (commit_id filename : String) (position : Nat) (body : String)
  | submitMerge (owner repo : String) (pr_number : Nat)
      (commit_title commit_message : Option String) (merge_method : String)
deriving Repr, DecidableEq

/-- The environment of one orchestration run: what the fetch produces and
how the merge endpoint answers each payload. -/
structure Gateway where
  fetchResp : Option PRInfo
  mergeResp : MergePayload → MergeHttpResponse

/-- The result dictionary of `review_pr_automatically`.  A field is
`none` when the source branch leaves the key out: the error return at
line 318 carries only `status` and `message`. -/
structure RunResult where
  status : String
  message : String
  issues_found : Option (List String) := none
  approval_status : Option String := none
  merged : Option Bool := none
  merge_message : Option String := none
  review_body : Option String := none
deriving Repr, DecidableEq

/-- `review_pr_automatically` (source lines 287-418), returning the
result dictionary together with the trace of Gateway operations invoked.
The source reads `pr_data.get("head_sha", "")` into `commit_id` at line
351 but never uses it, and no branch calls `create_review` or
`create_inline_comment`; the trace reflects this.  The outer `except`
at line 414 is unreachable in this pure model. -/
def review_pr_automatically (repo_owner repo_name : String) (pr_number : Nat)
    (auto_merge : Bool) (merge_method : String) (gw : Gateway) :
    RunResult × List GatewayCall :=
  let fetchCall := GatewayCall.fetchPR repo_owner repo_name pr_number
  match gw.fetchResp with
  | none =>
    ({ status := "error", message := "Failed to fetch PR data" }, [fetchCall])
  | some pr_data =>
    let issues_found := scanFiles pr_data.changes
    let review_body := "## Automated Review Results\n\n"
    if issues_found.isEmpty then
      let review_body := review_body ++ "No issues found! This PR looks good to merge."
      if auto_merge then
        if pr_data.mergeable then
          let commit_title := "Merge PR #" ++ toString pr_number ++ ": " ++ pr_data.title
          let commit_message := "Automatically merged after passing automated review."
          let merge_result :=
            merge_pr (some commit_title) (some commit_message) merge_method gw.mergeResp
          let merged := merge_result.merged
          let merge_message := merge_result.message
          ({ status := "success", issues_found := some issues_found,
             approval_status := some "approved", merged := some merged,
             merge_message := some merge_message,
             message :=
               if merged then "PR approved and merged: " ++ merge_message
               else "PR approved but merge failed: " ++ merge_message,
             review_body := some review_body },
           [fetchCall,
            GatewayCall.submitMerge repo_owner repo_name pr_number
              (some commit_title) (some commit_message) merge_method])
        else
          ({ status := "success", issues_found := some issues_found,
             approval_status := some "approved", merged := some false,
             message := "PR approved but not mergeable. Check for conflicts.",
             review_body := some review_body }, [fetchCall])
      else
        ({ status := "success", issues_found := some issues_found,
           approval_status := some "approved", merged := some false,
           message := "PR approved, but automatic merge is disabled",
           review_body := some review_body }, [fetchCall])
    else
      let review_body := review_body ++ "Some issues were found during the automated review:\n\n"
        ++ String.join (issues_found.map (fun issue => "- " ++ issue ++ "\n"))
      ({ status := "success", issues_found := some issues_found,
         approval_status := some "changes_requested", merged := some false,
         message := "Changes requested, PR not approved",
         review_body := some review_body }, [fetchCall])

/-- Is this call an invocation of `create_review`? -/
def isSubmitReview : GatewayCall → Bool
  | .submitReview .. => true
  | _ => false

/-- Is this call an invocation of `merge_pr`? -/
def isSubmitMerge : GatewayCall → Bool
  | .submitMerge .. => true
  | _ => false

/-- How many review submissions a trace contains. -/
def countReviewCalls (t : List GatewayCall) : Nat :=
  (t.filter isSubmitReview).length

/-- How many merge submissions a trace contains. -/
def countMergeCalls (t : List GatewayCall) : Nat :=
  (t.filter isSubmitMerge).length

/-- Does any textual field of the run result contain `s` as a literal
substring?  Used to state that a value (such as a merge commit sha) is
recorded nowhere in the result. -/
def resultMentions (r : RunResult) (s : String) : Bool :=
  strHasSub r.status s || strHasSub r.message s ||
  (match r.issues_found with
   | some l => l.any (fun i => strHasSub i s)
   | none => false) ||
  (match r.approval_status with | some a => strHasSub a s | none => false) ||
  (match r.merge_message with | some m => strHasSub m s | none => false) ||
  (match r.review_body with | some b => strHasSub b s | none => false)

/-! ## Concrete fixtures used by the witness theorems -/

/-- A changed file whose patch adds a line containing `TODO`. -/
def fcTodo : FileChange :=
  { filename := "a.py", status := "modified", additions := 1, deletions := 0,
    changes := 1, patch := "+x TODO", raw_url := "", contents_url := "" }

/-- A changed file whose patch adds a clean line. -/
def fcClean : FileChange :=
  { filename := "a.py", status := "modified", additions := 1, deletions := 0,
    changes := 1, patch := "+x", raw_url := "", contents_url := "" }

/-- A fetched PR with one flagged file. -/
def prTodo : PRInfo :=
  { title := "T", description := "d", author := "u", created_at := "c",
    updated_at := "c2", state := "open", total_changes := 1,
    changes := [fcTodo], head_sha := "headsha", mergeable := true }

/-- A fetched PR with no flagged line, currently mergeable. -/
def prClean : PRInfo :=
  { prTodo with changes := [fcClean] }

/-- A merge endpoint that always answers 200 with a message and a commit
sha `abc123sha`. -/
def mergeOkResp : MergePayload → MergeHttpResponse :=
  fun _ => MergeHttpResponse.ok (some "Pull Request successfully merged") (some "abc123sha")

/-- The environment whose fetch yields the flagged PR. -/
def gwTodo : Gateway := { fetchResp := some prTodo, mergeResp := mergeOkResp }

/-- The environment whose fetch yields the clean, mergeable PR. -/
def gwClean : Gateway := { fetchResp := some prClean, mergeResp := mergeOkResp }

/-- The environment whose fetch fails. -/
def gwFail : Gateway := { fetchResp := none, mergeResp := mergeOkResp }

/-- A metadata response in which the `head` commit is missing. -/
def rawNoHead : RawPRData :=
  { title := some "T", body := some "b", user_login := some "u",
    created_at := some "c", updated_at := some "c2", state := some "open",
    head_sha := none, mergeable := some true }

/-! ## Helper lemmas -/

theorem str_toList_append (s t : String) : (s ++ t).toList = s.toList ++ t.toList := by
  cases s; cases t; rfl

theorem strmk_toList (s : String) : String.mk s.toList = s := by
  cases s; rfl

theorem listHasPre_append_self (p t : List Char) : listHasPre p (p ++ t) = true := by
  induction p with
  | nil => rfl
  | cons a as ih => simp [listHasPre, ih]

theorem listHasSub_of_pre {p s : List Char} (h : listHasPre p s = true) :
    listHasSub p s = true := by
  cases s with
  | nil => simpa [listHasSub] using h
  | cons c rest => simp [listHasSub, h]

theorem listHasSub_append_right {p t : List Char} (s : List Char)
    (h : listHasSub p t = true) : listHasSub p (s ++ t) = true := by
  induction s with
  | nil => simpa using h
  | cons c cs ih =>
    show listHasSub p (c :: (cs ++ t)) = true
    simp [listHasSub, ih]

theorem strHasSub_left_concat (s t pat : String) (h : strHasSub t pat = true) :
    strHasSub (s ++ t) pat = true := by
  unfold strHasSub at h ⊢
  rw [str_toList_append]
  exact listHasSub_append_right _ h

theorem strHasSub_self_concat (s pat t : String) :
    strHasSub (s ++ (pat ++ t)) pat = true := by
  apply strHasSub_left_concat
  unfold strHasSub
  rw [str_toList_append]
  exact listHasSub_of_pre (listHasPre_append_self _ _)

theorem scanLines_eq_filter_map (f : String) (ls : List String) :
    scanLines f ls = (ls.filter flaggedLine_spec).map (fun l => mkIssue f (pyDropFirst l)) := by
  induction ls with
  | nil => rfl
  | cons l rest ih =>
    by_cases h1 : pyStartsWithPlus l = true
    · by_cases h2 : (strHasSub (pyDropFirst l) "TODO" || strHasSub (pyDropFirst l) "FIXME") = true
      · simp [scanLines, flaggedLine_spec, h1, h2, ih]
      · simp [scanLines, flaggedLine_spec, h1, h2, ih]
    · simp [scanLines, flaggedLine_spec, h1, ih]

theorem scanLines_skips_nonplus (f : String) (ls : List String) :
    scanLines f ls = scanLines f (ls.filter pyStartsWithPlus) := by
  induction ls with
  | nil => rfl
  | cons l rest ih =>
    by_cases h1 : pyStartsWithPlus l = true
    · simp only [List.filter, h1, scanLines, ih]
    · simp only [scanLines, List.filter, Bool.not_eq_true] at *
      simp [h1, ih, scanLines]

theorem listHasPre_self (p : List Char) : listHasPre p p = true := by
  simpa using listHasPre_append_self p []

theorem mkIssue_carries (f c : String) :
    strHasSub (mkIssue f c) f = true ∧ strHasSub (mkIssue f c) c = true := by
  constructor
  · unfold mkIssue strHasSub
    simp only [str_toList_append, List.append_assoc]
    exact listHasSub_append_right _ (listHasSub_of_pre (listHasPre_append_self _ _))
  · unfold mkIssue strHasSub
    rw [str_toList_append]
    exact listHasSub_append_right _ (listHasSub_of_pre (listHasPre_self _))

theorem pyStartsWithPlus_concat (rest : String) :
    pyStartsWithPlus ("+++ " ++ rest) = true := by
  have h : ("+++ " ++ rest).toList = '+' :: '+' :: '+' :: ' ' :: rest.toList := by
    rw [str_toList_append]; rfl
  simp [pyStartsWithPlus, h]

theorem pyDropFirst_concat (rest : String) :
    pyDropFirst ("+++ " ++ rest) = "++ " ++ rest := by
  have h : ("+++ " ++ rest).toList = '+' :: ("++ " ++ rest).toList := by
    rw [str_toList_append, str_toList_append]; rfl
  unfold pyDropFirst
  rw [h]
  exact strmk_toList _


/-! ## Claim theorems -/

/-- C1: the spec states that for every run in which the PR fetch
succeeds, the review (rendered body, mapped verdict, head commit) is
submitted via the Gateway Client before merge evaluation.  The source
never invokes `create_review` from `review_pr_automatically`: the trace
of every run, over all environments and arguments, contains zero review
submissions, so the required submission never happens. -/
theorem C1_no_review_submitted (repo_owner repo_name : String) (pr_number : Nat)
    (auto_merge : Bool) (merge_method : String) (gw : Gateway) :
    countReviewCalls
      (review_pr_automatically repo_owner repo_name pr_number auto_merge merge_method gw).2 = 0 := by
  obtain ⟨fr, mr⟩ := gw
  cases fr with
  | none => simp [review_pr_automatically, countReviewCalls, isSubmitReview, List.filter]
  | some pr_data =>
    by_cases he : (scanFiles pr_data.changes).isEmpty <;>
      cases auto_merge <;> by_cases hm : pr_data.mergeable <;>
        simp [review_pr_automatically, countReviewCalls, isSubmitReview, he, hm, List.filter]

/-- C2: for every patch and every added line (prefix `+`) whose content
with the leading `+` stripped contains `TODO` or `FIXME`, the scan emits
exactly one finding for that line, in order: the emitted list is exactly
the map of the issue constructor over the flagged lines, and each issue
string carries the file path and the stripped content verbatim. -/
theorem C2_scan_exact (filename patch : String) :
    scanPatch filename patch =
      ((pySplitNL patch).filter flaggedLine_spec).map
        (fun l => mkIssue filename (pyDropFirst l)) ∧
    ∀ content : String,
      strHasSub (mkIssue filename content) filename = true ∧
      strHasSub (mkIssue filename content) content = true :=
  ⟨scanLines_eq_filter_map filename (pySplitNL patch),
   fun content => mkIssue_carries filename content⟩

/-- C3: for every successfully fetched PR, the verdict is
`changes_requested` iff the accumulated findings are non-empty and
`approved` iff they are empty; no input yields both or neither. -/
theorem C3_verdict_iff (repo_owner repo_name : String) (pr_number : Nat)
    (auto_merge : Bool) (merge_method : String) (gw : Gateway) (pr_data : PRInfo)
    (h : gw.fetchResp = some pr_data) :
    (((review_pr_automatically repo_owner repo_name pr_number auto_merge merge_method gw).1.approval_status
        = some "changes_requested") ↔ scanFiles pr_data.changes ≠ []) ∧
    (((review_pr_automatically repo_owner repo_name pr_number auto_merge merge_method gw).1.approval_status
        = some "approved") ↔ scanFiles pr_data.changes = []) := by
  obtain ⟨fr, mr⟩ := gw
  simp only at h
  subst h
  by_cases he : (scanFiles pr_data.changes).isEmpty
  · have hnil : scanFiles pr_data.changes = [] := by simpa using he
    cases auto_merge <;> by_cases hm : pr_data.mergeable <;>
      simp [review_pr_automatically, he, hm, hnil]
  · have hnil : scanFiles pr_data.changes ≠ [] := by simpa using he
    simp [review_pr_automatically, he, hnil]

/-- C4: for every run whose verdict is `changes_requested`, the merge
operation is never invoked (for both values of `auto_merge`, which is
universally quantified here) and the result records `merged = false`. -/
theorem C4_changes_requested_no_merge (repo_owner repo_name : String) (pr_number : Nat)
    (auto_merge : Bool) (merge_method : String) (gw : Gateway)
    (h : (review_pr_automatically repo_owner repo_name pr_number auto_merge merge_method gw).1.approval_status
        = some "changes_requested") :
    countMergeCalls
      (review_pr_automatically repo_owner repo_name pr_number auto_merge merge_method gw).2 = 0 ∧
    (review_pr_automatically repo_owner repo_name pr_number auto_merge merge_method gw).1.merged
      = some false := by
  obtain ⟨fr, mr⟩ := gw
  cases fr with
  | none => simp [review_pr_automatically] at h
  | some pr_data =>
    by_cases he : (scanFiles pr_data.changes).isEmpty
    · cases auto_merge <;> by_cases hm : pr_data.mergeable <;>
        simp [review_pr_automatically, he, hm] at h
    · simp [review_pr_automatically, he, countMergeCalls, isSubmitMerge, List.filter]

/-- C5 counterexample: a run that is approved, auto-merged, and whose
merge response carries the commit sha `abc123sha`; the returned result
mentions that sha in none of its fields, so the claim that the result
records the resulting commit identifier when present is false. -/
theorem C5_sha_not_recorded :
    (merge_pr (some ("Merge PR #" ++ toString 1 ++ ": " ++ prClean.title))
        (some "Automatically merged after passing automated review.") "merge" mergeOkResp).sha
      = some "abc123sha" ∧
    resultMentions (review_pr_automatically "o" "r" 1 true "merge" gwClean).1 "abc123sha" = false := by
  decide

/-- C5 amended: for every run whose verdict is `approved`: with
`auto_merge` false no merge call is made and the result records the merge
as skipped by configuration; with `auto_merge` true but the snapshot not
mergeable no merge call is made and the result records `approved but not
mergeable`; with `auto_merge` true and the snapshot mergeable exactly one
merge request is issued, with the requested `merge_method` and the title
derived from the PR number and title, and the result records the merge
outcome (`merged`) and the merge response message (`merge_message`) —
but not the resulting commit identifier. -/
theorem C5_merge_evaluation (repo_owner repo_name : String) (pr_number : Nat)
    (auto_merge : Bool) (merge_method : String) (gw : Gateway) (pr_data : PRInfo)
    (h : gw.fetchResp = some pr_data)
    (ha : (review_pr_automatically repo_owner repo_name pr_number auto_merge merge_method gw).1.approval_status
        = some "approved") :
    (auto_merge = false →
      (review_pr_automatically repo_owner repo_name pr_number auto_merge merge_method gw).2
        = [GatewayCall.fetchPR repo_owner repo_name pr_number] ∧
      (review_pr_automatically repo_owner repo_name pr_number auto_merge merge_method gw).1.merged
        = some false ∧
      (review_pr_automatically repo_owner repo_name pr_number auto_merge merge_method gw).1.message
        = "PR approved, but automatic merge is disabled") ∧
    (auto_merge = true → pr_data.mergeable = false →
      (review_pr_automatically repo_owner repo_name pr_number auto_merge merge_method gw).2
        = [GatewayCall.fetchPR repo_owner repo_name pr_number] ∧
      (review_pr_automatically repo_owner repo_name pr_number auto_merge merge_method gw).1.merged
        = some false ∧
      (review_pr_automatically repo_owner repo_name pr_number auto_merge merge_method gw).1.message
        = "PR approved but not mergeable. Check for conflicts.") ∧
    (auto_merge = true → pr_data.mergeable = true →
      (review_pr_automatically repo_owner repo_name pr_number auto_merge merge_method gw).2
        = [GatewayCall.fetchPR repo_owner repo_name pr_number,
           GatewayCall.submitMerge repo_owner repo_name pr_number
             (some ("Merge PR #" ++ toString pr_number ++ ": " ++ pr_data.title))
             (some "Automatically merged after passing automated review.") merge_method] ∧
      (review_pr_automatically repo_owner repo_name pr_number auto_merge merge_method gw).1.merged
        = some (merge_pr (some ("Merge PR #" ++ toString pr_number ++ ": " ++ pr_data.title))
            (some "Automatically merged after passing automated review.") merge_method gw.mergeResp).merged ∧
      (review_pr_automatically repo_owner repo_name pr_number auto_merge merge_method gw).1.merge_message
        = some (merge_pr (some ("Merge PR #" ++ toString pr_number ++ ": " ++ pr_data.title))
            (some "Automatically merged after passing automated review.") merge_method gw.mergeResp).message) := by
  obtain ⟨fr, mr⟩ := gw
  simp only at h
  subst h
  by_cases he : (scanFiles pr_data.changes).isEmpty
  · cases auto_merge <;> by_cases hm : pr_data.mergeable <;>
      simp [review_pr_automatically, he, hm]
  · simp [review_pr_automatically, he] at ha

/-- C6: for every run in which the PR fetch fails, the orchestrator
returns status `error` with a descriptive message, the trace contains
only the fetch, and in particular neither the review submission nor the
merge operation is invoked. -/
theorem C6_fetch_failure (repo_owner repo_name : String) (pr_number : Nat)
    (auto_merge : Bool) (merge_method : String) (gw : Gateway)
    (h : gw.fetchResp = none) :
    (review_pr_automatically repo_owner repo_name pr_number auto_merge merge_method gw).1.status
      = "error" ∧
    (review_pr_automatically repo_owner repo_name pr_number auto_merge merge_method gw).1.message
      = "Failed to fetch PR data" ∧
    (review_pr_automatically repo_owner repo_name pr_number auto_merge merge_method gw).2
      = [GatewayCall.fetchPR repo_owner repo_name pr_number] ∧
    countReviewCalls
      (review_pr_automatically repo_owner repo_name pr_number auto_merge merge_method gw).2 = 0 ∧
    countMergeCalls
      (review_pr_automatically repo_owner repo_name pr_number auto_merge merge_method gw).2 = 0 := by
  obtain ⟨fr, mr⟩ := gw
  simp only at h
  subst h
  simp [review_pr_automatically, countReviewCalls, countMergeCalls,
    isSubmitReview, isSubmitMerge, List.filter]

/-- C7: removed lines, context lines, and hunk headers never produce a
finding — scanning a patch equals scanning only its lines that start
with `+` — and an empty or absent patch (stored as the empty string by
the fetch) yields no findings: the file is silently skipped. -/
theorem C7_only_added_lines (filename patch : String) (fc : FileChange) :
    scanPatch filename patch
      = scanLines filename ((pySplitNL patch).filter pyStartsWithPlus) ∧
    scanPatch filename "" = [] ∧
    fileFindings { fc with patch := "" } = [] :=
  ⟨scanLines_skips_nonplus filename (pySplitNL patch), rfl, rfl⟩

/-- C9: the scanner classifies a line as added solely by its first
character being `+`: a unified-diff file-header line `+++ <path>` whose
remaining text contains `TODO` or `FIXME` is flagged, producing the
finding for the header content with only the first `+` stripped. -/
theorem C9_header_line_flagged (filename patch rest : String)
    (hmem : ("+++ " ++ rest) ∈ pySplitNL patch)
    (hsub : (strHasSub rest "TODO" || strHasSub rest "FIXME") = true) :
    mkIssue filename ("++ " ++ rest) ∈ scanPatch filename patch := by
  have hflag : flaggedLine_spec ("+++ " ++ rest) = true := by
    unfold flaggedLine_spec
    rw [pyStartsWithPlus_concat, pyDropFirst_concat]
    rcases Bool.or_eq_true_iff.mp hsub with hT | hF
    · simp [strHasSub_left_concat "++ " rest "TODO" hT]
    · simp [strHasSub_left_concat "++ " rest "FIXME" hF]
  rw [scanPatch, scanLines_eq_filter_map]
  have hmem2 : ("+++ " ++ rest) ∈ (pySplitNL patch).filter flaggedLine_spec :=
    List.mem_filter.mpr ⟨hmem, hflag⟩
  have h2 := List.mem_map_of_mem (fun l => mkIssue filename (pyDropFirst l)) hmem2
  simpa [pyDropFirst_concat] using h2

/-- C10: a merge invocation whose `merge_method` is outside
`{merge, squash, rebase}` is not rejected: the outgoing payload simply
omits the `merge_method` key, the other payload fields are the ones any
invocation would produce, and the call proceeds to the request and
translates the response exactly as usual. -/
theorem C10_invalid_merge_method (commit_title commit_message : Option String)
    (merge_method : String) (respond : MergePayload → MergeHttpResponse)
    (h : (merge_method == "merge" || merge_method == "squash" || merge_method == "rebase") = false) :
    buildMergePayload commit_title commit_message merge_method
      = { commit_title := truthyStr commit_title,
          commit_message := truthyStr commit_message, merge_method := none } ∧
    merge_pr commit_title commit_message merge_method respond
      = handleMergeResponse (respond
          { commit_title := truthyStr commit_title,
            commit_message := truthyStr commit_message, merge_method := none }) := by
  have hb : buildMergePayload commit_title commit_message merge_method
      = { commit_title := truthyStr commit_title,
          commit_message := truthyStr commit_message, merge_method := none } := by
    simp only [buildMergePayload, h, if_false, Bool.false_eq_true]
  exact ⟨hb, by rw [merge_pr, hb]⟩

theorem mapM_some_mem {α β : Type} {g : α → Option β} :
    ∀ {l : List α} {res : List β}, l.mapM g = some res → ∀ a ∈ l, ∃ b, g a = some b := by
  intro l
  induction l with
  | nil => intro res _ a ha; cases ha
  | cons x xs ih =>
    intro res h a ha
    rw [List.mapM_cons] at h
    cases hx : g x with
    | none => rw [hx] at h; simp at h
    | some b =>
      rw [hx] at h
      cases hxs : xs.mapM g with
      | none => rw [hxs] at h; simp at h
      | some bs =>
        rcases List.mem_cons.mp ha with rfl | hmem
        · exact ⟨b, hx⟩
        · exact ih hxs a hmem

theorem mkFileChange_none_of_missing {f : RawFileData}
    (h : f.filename = none ∨ f.status = none ∨ f.additions = none ∨
         f.deletions = none ∨ f.changes = none) :
    mkFileChange f = none := by
  obtain ⟨fn, st, a, d, c, p, r, cu⟩ := f
  simp only at h
  cases fn <;> cases st <;> cases a <;> cases d <;> cases c <;>
    simp_all [mkFileChange]

theorem fetch_none_of_missing (pr : RawPRData) (files : List RawFileData)
    (h : pr.title = none ∨ pr.body = none ∨ pr.user_login = none ∨
         pr.created_at = none ∨ pr.updated_at = none ∨ pr.state = none ∨
         pr.head_sha = none ∨
         ∃ f ∈ files, (f.filename = none ∨ f.status = none ∨ f.additions = none ∨
           f.deletions = none ∨ f.changes = none)) :
    fetch_pr_changes (FetchResponse.ok pr files) = none := by
  cases hmm : files.mapM mkFileChange with
  | none =>
    simp only [fetch_pr_changes]
    rw [hmm]
    rfl
  | some cs =>
    by_cases hex : ∃ f ∈ files, (f.filename = none ∨ f.status = none ∨
        f.additions = none ∨ f.deletions = none ∨ f.changes = none)
    · obtain ⟨f, hf, hmiss⟩ := hex
      obtain ⟨bb, hb⟩ := mapM_some_mem hmm f hf
      rw [mkFileChange_none_of_missing hmiss] at hb
      exact Option.noConfusion hb
    · obtain ⟨t, b, ul, ca, ua, st, hs, mg⟩ := pr
      simp only at h
      simp only [fetch_pr_changes]
      rw [hmm]
      cases t <;> cases b <;> cases ul <;> cases ca <;> cases ua <;> cases st <;> cases hs <;>
        first
          | rfl
          | exact (hex (by simpa using h)).elim

/-- C8: a fetch response missing any expected field — one of the required
PR-level keys (`title`, `body`, `user.login`, the timestamps, `state`,
the `head` commit) or a required key of any entry of the file list — is
treated like a transport failure: `fetch_pr_changes` yields `None`, and a
run over that fetch outcome returns status `error` without invoking the
review submission or the merge operation, never proceeding with partial
data. -/
theorem C8_missing_required_field (repo_owner repo_name : String) (pr_number : Nat)
    (auto_merge : Bool) (merge_method : String) (pr : RawPRData)
    (files : List RawFileData) (mr : MergePayload → MergeHttpResponse)
    (h : pr.title = none ∨ pr.body = none ∨ pr.user_login = none ∨
         pr.created_at = none ∨ pr.updated_at = none ∨ pr.state = none ∨
         pr.head_sha = none ∨
         ∃ f ∈ files, (f.filename = none ∨ f.status = none ∨ f.additions = none ∨
           f.deletions = none ∨ f.changes = none)) :
    fetch_pr_changes (FetchResponse.ok pr files) = none ∧
    (review_pr_automatically repo_owner repo_name pr_number auto_merge merge_method
        { fetchResp := fetch_pr_changes (FetchResponse.ok pr files), mergeResp := mr }).1.status
      = "error" ∧
    countReviewCalls
      (review_pr_automatically repo_owner repo_name pr_number auto_merge merge_method
        { fetchResp := fetch_pr_changes (FetchResponse.ok pr files), mergeResp := mr }).2 = 0 ∧
    countMergeCalls
      (review_pr_automatically repo_owner repo_name pr_number auto_merge merge_method
        { fetchResp := fetch_pr_changes (FetchResponse.ok pr files), mergeResp := mr }).2 = 0 := by
  have hf := fetch_none_of_missing pr files h
  refine ⟨hf, ?_⟩
  rw [hf]
  simp [review_pr_automatically, countReviewCalls, countMergeCalls,
    isSubmitReview, isSubmitMerge, List.filter]

/-! ## Witnesses: each applies its theorem at a concrete input -/

/-- C3 witness: the theorem applied to a concrete environment whose
fetch yields a PR with one flagged line. -/
theorem C3_verdict_iff_witness :
    gwTodo.fetchResp = some prTodo ∧
    ((((review_pr_automatically "o" "r" 1 false "merge" gwTodo).1.approval_status
        = some "changes_requested") ↔ scanFiles prTodo.changes ≠ []) ∧
     (((review_pr_automatically "o" "r" 1 false "merge" gwTodo).1.approval_status
        = some "approved") ↔ scanFiles prTodo.changes = [])) :=
  ⟨rfl, C3_verdict_iff "o" "r" 1 false "merge" gwTodo prTodo rfl⟩

/-- C4 witness: the theorem applied to a concrete run that requests
changes while `auto_merge` is true. -/
theorem C4_changes_requested_no_merge_witness :
    (review_pr_automatically "o" "r" 1 true "merge" gwTodo).1.approval_status
      = some "changes_requested" ∧
    (countMergeCalls (review_pr_automatically "o" "r" 1 true "merge" gwTodo).2 = 0 ∧
     (review_pr_automatically "o" "r" 1 true "merge" gwTodo).1.merged = some false) :=
  ⟨by decide, C4_changes_requested_no_merge "o" "r" 1 true "merge" gwTodo (by decide)⟩

/-- C5 witness: the amended theorem applied to a concrete approved,
mergeable, auto-merged run. -/
theorem C5_merge_evaluation_witness :
    (gwClean.fetchResp = some prClean ∧
     (review_pr_automatically "o" "r" 1 true "merge" gwClean).1.approval_status
       = some "approved") ∧
    ((true = false →
      (review_pr_automatically "o" "r" 1 true "merge" gwClean).2
        = [GatewayCall.fetchPR "o" "r" 1] ∧
      (review_pr_automatically "o" "r" 1 true "merge" gwClean).1.merged = some false ∧
      (review_pr_automatically "o" "r" 1 true "merge" gwClean).1.message
        = "PR approved, but automatic merge is disabled") ∧
     (true = true → prClean.mergeable = false →
      (review_pr_automatically "o" "r" 1 true "merge" gwClean).2
        = [GatewayCall.fetchPR "o" "r" 1] ∧
      (review_pr_automatically "o" "r" 1 true "merge" gwClean).1.merged = some false ∧
      (review_pr_automatically "o" "r" 1 true "merge" gwClean).1.message
        = "PR approved but not mergeable. Check for conflicts.") ∧
     (true = true → prClean.mergeable = true →
      (review_pr_automatically "o" "r" 1 true "merge" gwClean).2
        = [GatewayCall.fetchPR "o" "r" 1,
           GatewayCall.submitMerge "o" "r" 1
             (some ("Merge PR #" ++ toString 1 ++ ": " ++ prClean.title))
             (some "Automatically merged after passing automated review.") "merge"] ∧
      (review_pr_automatically "o" "r" 1 true "merge" gwClean).1.merged
        = some (merge_pr (some ("Merge PR #" ++ toString 1 ++ ": " ++ prClean.title))
            (some "Automatically merged after passing automated review.") "merge" gwClean.mergeResp).merged ∧
      (review_pr_automatically "o" "r" 1 true "merge" gwClean).1.merge_message
        = some (merge_pr (some ("Merge PR #" ++ toString 1 ++ ": " ++ prClean.title))
            (some "Automatically merged after passing automated review.") "merge" gwClean.mergeResp).message)) :=
  ⟨⟨rfl, by decide⟩, C5_merge_evaluation "o" "r" 1 true "merge" gwClean prClean rfl (by decide)⟩

/-- C6 witness: the theorem applied to a concrete environment whose
fetch fails. -/
theorem C6_fetch_failure_witness :
    gwFail.fetchResp = none ∧
    ((review_pr_automatically "o" "r" 1 false "merge" gwFail).1.status = "error" ∧
     (review_pr_automatically "o" "r" 1 false "merge" gwFail).1.message
       = "Failed to fetch PR data" ∧
     (review_pr_automatically "o" "r" 1 false "merge" gwFail).2
       = [GatewayCall.fetchPR "o" "r" 1] ∧
     countReviewCalls (review_pr_automatically "o" "r" 1 false "merge" gwFail).2 = 0 ∧
     countMergeCalls (review_pr_automatically "o" "r" 1 false "merge" gwFail).2 = 0) :=
  ⟨rfl, C6_fetch_failure "o" "r" 1 false "merge" gwFail rfl⟩

/-- C8 witness: the theorem applied to a concrete metadata response with
no `head` commit. -/
theorem C8_missing_required_field_witness :
    (rawNoHead.title = none ∨ rawNoHead.body = none ∨ rawNoHead.user_login = none ∨
     rawNoHead.created_at = none ∨ rawNoHead.updated_at = none ∨
     rawNoHead.state = none ∨ rawNoHead.head_sha = none ∨
     ∃ f ∈ ([] : List RawFileData), (f.filename = none ∨ f.status = none ∨
       f.additions = none ∨ f.deletions = none ∨ f.changes = none)) ∧
    (fetch_pr_changes (FetchResponse.ok rawNoHead []) = none ∧
     (review_pr_automatically "o" "r" 1 false "merge"
        { fetchResp := fetch_pr_changes (FetchResponse.ok rawNoHead []), mergeResp := mergeOkResp }).1.status
       = "error" ∧
     countReviewCalls
       (review_pr_automatically "o" "r" 1 false "merge"
         { fetchResp := fetch_pr_changes (FetchResponse.ok rawNoHead []), mergeResp := mergeOkResp }).2 = 0 ∧
     countMergeCalls
       (review_pr_automatically "o" "r" 1 false "merge"
         { fetchResp := fetch_pr_changes (FetchResponse.ok rawNoHead []), mergeResp := mergeOkResp }).2 = 0) :=
  ⟨by decide, C8_missing_required_field "o" "r" 1 false "merge" rawNoHead [] mergeOkResp (by decide)⟩

/-- C9 witness: the theorem applied to a concrete patch whose `+++`
file-header line names a file containing `TODO`. -/
theorem C9_header_line_flagged_witness :
    (("+++ " ++ "b/TODO.md") ∈ pySplitNL "--- a/f\n+++ b/TODO.md\n@@ -0,0 +1 @@\n+x" ∧
     (strHasSub "b/TODO.md" "TODO" || strHasSub "b/TODO.md" "FIXME") = true) ∧
    mkIssue "f" ("++ " ++ "b/TODO.md")
      ∈ scanPatch "f" "--- a/f\n+++ b/TODO.md\n@@ -0,0 +1 @@\n+x" :=
  ⟨⟨by decide, by decide⟩,
   C9_header_line_flagged "f" "--- a/f\n+++ b/TODO.md\n@@ -0,0 +1 @@\n+x" "b/TODO.md"
     (by decide) (by decide)⟩

/-- C10 witness: the theorem applied to the concrete unsupported method
`fast-forward`. -/
theorem C10_invalid_merge_method_witness :
    (("fast-forward" == "merge" || "fast-forward" == "squash" || "fast-forward" == "rebase")
       = false) ∧
    (buildMergePayload (some "t") (some "m") "fast-forward"
       = { commit_title := truthyStr (some "t"),
           commit_message := truthyStr (some "m"), merge_method := none } ∧
     merge_pr (some "t") (some "m") "fast-forward" mergeOkResp
       = handleMergeResponse (mergeOkResp
           { commit_title := truthyStr (some "t"),
             commit_message := truthyStr (some "m"), merge_method := none })) :=
  ⟨by decide, C10_invalid_merge_method (some "t") (some "m") "fast-forward" mergeOkResp (by decide)⟩
